import Mathlib

/-!
Shallow embedding of `src/frontend/server.py` (the AuthX frontend development
server): the `CustomHTTPRequestHandler` overrides `do_OPTIONS`, `end_headers`,
`guess_type`, `send_head` and `log_message` of the standard library's
`SimpleHTTPRequestHandler`.  Pure data is embedded directly; the filesystem is
an explicit association list from (normalized) paths to nodes; the external
collaborators the handler delegates to (the generic extension-to-MIME lookup,
the directory-listing fallback, the HTTP-date formatter, the base handler's
error-page renderer and per-response log dispatch) are either parameters of the
embedded functions or small models whose doc comments say so.
-/

namespace AuthX

/-- Python `p.endswith(suf)` on strings, embedded as list-suffix on the
underlying character lists. -/
def endsWithS (p suf : String) : Bool :=
  suf.data.isSuffixOf p.data

/-- A single HTTP header line: name and value. -/
abbrev Header := String × String

/-- The six fixed headers that the overridden `end_headers`
(src/frontend/server.py lines 47-56) appends, in source order: three CORS
headers and three security headers. -/
def corsSecurityHeaders : List Header :=
  [("Access-Control-Allow-Origin", "*"),
   ("Access-Control-Allow-Methods", "GET, POST, PUT, DELETE, OPTIONS"),
   ("Access-Control-Allow-Headers", "Content-Type, Authorization"),
   ("X-Content-Type-Options", "nosniff"),
   ("X-Frame-Options", "DENY"),
   ("X-XSS-Protection", "1; mode=block")]

/-- The overridden `end_headers`: given the headers a branch already sent via
`send_header`, it appends the six CORS/security headers and then closes the
block (`super().end_headers()`).  The returned list is the final header block. -/
def end_headers (sent : List Header) : List Header :=
  sent ++ corsSecurityHeaders

/-- The kind of body a response carries. -/
inductive Body
  /-- No body at all (OPTIONS reply, 301 redirect). -/
  | empty
  /-- The bytes of the file at `path`, `size` bytes streamed from the open handle. -/
  | file (path : String) (size : Nat)
  /-- The directory-listing page for `dir`, produced by the external collaborator. -/
  | listing (dir : String)
  /-- The base handler's error page for status `code`, interpolating `message`. -/
  | error (code : Nat) (message : String)
deriving DecidableEq, Repr

/-- An HTTP response as the handler produces it: status code, the full header
block (in emission order, duplicates kept), and the body. -/
structure Response where
  status : Nat
  headers : List Header
  body : Body
deriving DecidableEq, Repr

/-- The `do_OPTIONS` override (lines 38-45): status 200, the four CORS
preflight headers, then `end_headers`; no body, and no filesystem argument
because the branch performs no filesystem access. -/
def do_OPTIONS : Response :=
  { status := 200
    headers := end_headers
      [("Access-Control-Allow-Origin", "*"),
       ("Access-Control-Allow-Methods", "GET, POST, PUT, DELETE, OPTIONS"),
       ("Access-Control-Allow-Headers", "Content-Type, Authorization"),
       ("Access-Control-Max-Age", "3600")]
    body := Body.empty }

/-- Modelled from the spec: the base handler's `send_error` (external
collaborator) sends the status, its own error-page headers, closes the block
through the overridden `end_headers`, and renders an error body that
interpolates the message. -/
def send_error (code : Nat) (message : String) : Response :=
  { status := code
    headers := end_headers
      [("Content-Type", "text/html;charset=utf-8"), ("Connection", "close")]
    body := Body.error code message }

/-- Modelled from the spec: the directory-listing fallback (external
collaborator, `list_directory` of the base class) responds 200 with an HTML
listing of the directory, closing its header block through the overridden
`end_headers`. -/
def list_directory (dir : String) : Response :=
  { status := 200
    headers := end_headers [("Content-type", "text/html; charset=utf-8")]
    body := Body.listing dir }

/-- The dynamic shape of what `super().guess_type(path)` may return, as the
override's `isinstance` chain distinguishes it: a `(mimetype, encoding)`
tuple, a bare string, or anything else. -/
inductive PyGuess
  | tup (ctype : String) (encoding : Option String)
  | str (s : String)
  | other
deriving DecidableEq, Repr

/-- The `isinstance` normalization at the tail of the `guess_type` override
(lines 72-77): a tuple is returned as-is, a string is paired with no encoding,
anything else becomes `application/octet-stream`. -/
def wrapGuess : PyGuess → String × Option String
  | PyGuess.tup t e => (t, e)
  | PyGuess.str s => (s, none)
  | PyGuess.other => ("application/octet-stream", none)

/-- The `guess_type` override (lines 58-77), parameterized by the external
`super().guess_type` collaborator `sg`.  The special cases test the path
string it is given (the handler passes the raw request path). -/
def guess_type (path : String) (sg : String → PyGuess) : String × Option String :=
  if endsWithS path ".js" then ("application/javascript", none)
  else if endsWithS path ".css" then ("text/css", none)
  else if endsWithS path ".html" || path == "/" || endsWithS path "/" then
    ("text/html", none)
  else wrapGuess (sg path)

/-- The Content-type value formatting in `send_head` (lines 117-121): with an
encoding hint the value is `"<type>; charset=<encoding>"`, otherwise just the
type.  (The `isinstance(ctype, tuple)` re-checks at lines 112-115 are
identities here, since `guess_type` always returns a string/option pair.) -/
def formatContentType (ctype : String) (encoding : Option String) : String :=
  match encoding with
  | some e => ctype ++ "; charset=" ++ e
  | none => ctype

/-- The Content-type header value `send_head` emits for a request path,
combining `guess_type` on that path with the formatting step. -/
def contentTypeFor (sg : String → PyGuess) (path : String) : String :=
  formatContentType (guess_type path sg).1 (guess_type path sg).2

/-- The query- and fragment-stripping head of the base handler's
`translate_path` (external collaborator): `path.split('?',1)[0]` then
`.split('#',1)[0]`.  The remaining root-joining is abstracted into how the
filesystem model keys its entries. -/
def translate_path (p : String) : String :=
  String.mk (p.data.takeWhile (fun c => !(c == '?') && !(c == '#')))

/-- Stat data of a regular file: byte size (`st_size`, i.e. `fs[6]`) and
modification timestamp (`st_mtime`). -/
structure FileStat where
  size : Nat
  mtime : Nat
deriving DecidableEq, Repr

/-- A filesystem node: a regular file (with stat data and a readability flag
deciding whether `open(path, 'rb')` succeeds) or a directory. -/
inductive Node
  | file (stat : FileStat) (readable : Bool)
  | dir
deriving DecidableEq, Repr

/-- The filesystem under the serving root: an association list from normalized
paths to nodes. -/
abbrev FS := List (String × Node)

/-- POSIX path normalization for lookups: trailing separators are dropped, as
`os.path.isdir` and `os.path.exists` accept them. -/
def fsKey (p : String) : String :=
  String.mk ((p.data.reverse.dropWhile (fun c => c == '/')).reverse)

/-- Node lookup in the filesystem model. -/
def FS.find (fs : FS) (p : String) : Option Node :=
  List.lookup (fsKey p) fs

/-- Python `os.path.isdir`. -/
def isdir (fs : FS) (p : String) : Bool :=
  match FS.find fs p with
  | some Node.dir => true
  | _ => false

/-- Python `os.path.exists`: true for files and directories alike. -/
def pathExists (fs : FS) (p : String) : Bool :=
  (FS.find fs p).isSome

/-- Python `open(p, 'rb')` followed by `os.fstat` as the model sees it: yields
the stat data when `p` names a readable regular file, and nothing (an
`OSError`) when `p` is missing, a directory, unreadable, or has a trailing
separator. -/
def openFile (fs : FS) (p : String) : Option FileStat :=
  if endsWithS p "/" then none
  else
    match FS.find fs p with
    | some (Node.file st readable) => if readable then some st else none
    | _ => none

/-- Python `os.path.join(dir, name)` for a relative `name`. -/
def joinPath (dir name : String) : String :=
  if endsWithS dir "/" then dir ++ name else dir ++ "/" ++ name

/-- The index-file scan of `send_head` (lines 92-96): `index.html` then
`index.htm`, first existing one wins; `none` means the `for`-loop's `else`
(directory listing) runs. -/
def firstIndex (fs : FS) (dir : String) : Option String :=
  if pathExists fs (joinPath dir "index.html") then some (joinPath dir "index.html")
  else if pathExists fs (joinPath dir "index.htm") then some (joinPath dir "index.htm")
  else none

/-- The open-and-serve tail of `send_head` (lines 100-128): open the resolved
`filePath` (404 on `OSError`), then respond 200 with Content-type computed
from the ORIGINAL request path `reqPath`, Content-Length from the stat size,
and Last-Modified from the stat mtime through the external date formatter
`dts`.  The second component is the open file handle `send_head` returns
(`none` when no handle is retained). -/
def serveFile (fs : FS) (sg : String → PyGuess) (dts : Nat → String)
    (reqPath filePath : String) : Response × Option String :=
  match openFile fs filePath with
  | none => (send_error 404 "File not found", none)
  | some st =>
    ({ status := 200
       headers := end_headers
         [("Content-type", contentTypeFor sg reqPath),
          ("Content-Length", toString st.size),
          ("Last-Modified", dts st.mtime)]
       body := Body.file filePath st.size }, some filePath)

/-- The `send_head` override (lines 79-131): translate the request path, serve
a redirect for a directory reached without a trailing slash, substitute an
index file or fall back to the listing for a directory reached with one, and
otherwise open and serve the file. -/
def send_head (fs : FS) (sg : String → PyGuess) (dts : Nat → String)
    (reqPath : String) : Response × Option String :=
  let path := translate_path reqPath
  if isdir fs path then
    if !(endsWithS reqPath "/") then
      ({ status := 301
         headers := end_headers [("Location", reqPath ++ "/")]
         body := Body.empty }, none)
    else
      match firstIndex fs path with
      | some idx => serveFile fs sg dts reqPath idx
      | none => (list_directory path, none)
  else
    serveFile fs sg dts reqPath path

/-- The path `send_head` will try to `open`, after directory handling and
index substitution: `none` on the redirect and listing branches. -/
def resolvedPath (fs : FS) (reqPath : String) : Option String :=
  let path := translate_path reqPath
  if isdir fs path then
    if !(endsWithS reqPath "/") then none
    else firstIndex fs path
  else some path

/-- The `log_message` override (lines 133-137): the entry is suppressed exactly
when the second argument (the status string of the base handler's
`log_request` call) is `'200'`; otherwise the base formatter emits one line
joining the arguments. -/
def log_message (args : List String) : List String :=
  if args.getD 1 "" == "200" then [] else [String.intercalate " " args]

/-- Modelled from the spec: the base handler's per-response log dispatch
(external collaborator) — after every response is dispatched, `log_request`
calls `log_message` once with the request line, the status string and the
size. -/
def log_request (method path : String) (code : Nat) : List String :=
  log_message [method ++ " " ++ path, toString code, "-"]

/-- Basename characters of a POSIX path: everything after the last separator. -/
def basenameChars (cs : List Char) : List Char :=
  (cs.reverse.takeWhile (fun c => !(c == '/'))).reverse

/-- Split a reversed character list at its first `'.'`: returns the characters
before the dot (in original order reversed back at use sites) and the rest. -/
def splitDotRev : List Char → Option (List Char × List Char)
  | [] => none
  | c :: cs =>
    if c == '.' then some ([], cs)
    else
      match splitDotRev cs with
      | some (e, r) => some (c :: e, r)
      | none => none

/-- Modelled from the spec: the extension component of Python's
`posixpath.splitext` — the suffix from the last dot of the basename, empty
when the basename has no dot or only leading dots before it. -/
def extOf (p : String) : String :=
  match splitDotRev (basenameChars p.data).reverse with
  | some (eRev, restRev) =>
    if restRev.any (fun c => !(c == '.')) then String.mk ('.' :: eRev.reverse)
    else ""
  | none => ""

/-- Extension-to-MIME table of the modelled generic lookup. -/
def mimeTable : List (String × String) :=
  [(".js", "text/javascript"), (".mjs", "text/javascript"),
   (".json", "application/json"), (".png", "image/png"),
   (".jpg", "image/jpeg"), (".gif", "image/gif"),
   (".svg", "image/svg+xml"), (".txt", "text/plain"),
   (".pdf", "application/pdf"), (".css", "text/css"),
   (".html", "text/html"), (".htm", "text/html")]

/-- Table lookup for the modelled generic MIME lookup. -/
def mimeLookup (ext : String) : Option String :=
  List.lookup ext mimeTable

/-- Modelled from the spec: the generic extension-to-MIME lookup (external
collaborator, `SimpleHTTPRequestHandler.guess_type` of the base class): map
the path's extension to a best-guess MIME type string, defaulting to
`application/octet-stream` when the lookup yields nothing usable. -/
def stdlibGuess (p : String) : PyGuess :=
  match mimeLookup (extOf p) with
  | some t => PyGuess.str t
  | none => PyGuess.str "application/octet-stream"

/-- None of the special cases of the `guess_type` override applies to `p`. -/
def noSpecialCase (p : String) : Prop :=
  endsWithS p ".js" = false ∧ endsWithS p ".css" = false ∧
  endsWithS p ".html" = false ∧ p ≠ "/" ∧ endsWithS p "/" = false

instance (p : String) : Decidable (noSpecialCase p) := by
  unfold noSpecialCase; infer_instance

/-- The collaborator's answer names a nonempty MIME type (trivially so for the
unusable shape, which the override replaces wholesale). -/
def guessNonempty : PyGuess → Prop
  | PyGuess.tup t _ => t ≠ ""
  | PyGuess.str s => s ≠ ""
  | PyGuess.other => True

instance (g : PyGuess) : Decidable (guessNonempty g) := by
  cases g <;> simp [guessNonempty] <;> infer_instance

/-- Header names of the three security headers the finalization step adds. -/
def securityNames : List String :=
  ["X-Content-Type-Options", "X-Frame-Options", "X-XSS-Protection"]

/-- The header block was closed through the shared finalization exactly once:
the six CORS/security headers are its final suffix, and no earlier header is a
second copy of a security header. -/
def finalizedOnce (hs : List Header) : Prop :=
  ∃ pre, hs = pre ++ corsSecurityHeaders ∧ ∀ h ∈ pre, h.1 ∉ securityNames

section Helpers

/-- A string that ends with `suf` has the same last character as `suf`. -/
theorem endsWithS_getLast (p suf : String) (c : Char)
    (hc : suf.data.getLast? = some c) (h : endsWithS p suf = true) :
    p.data.getLast? = some c := by
  unfold endsWithS at h
  obtain ⟨t, ht⟩ := List.isSuffixOf_iff_suffix.mp h
  rw [← ht, List.getLast?_append, hc]
  rfl

/-- Characters of a suffix occur in the full string. -/
theorem mem_of_endsWithS (p suf : String) (c : Char) (hc : c ∈ suf.data)
    (h : endsWithS p suf = true) : c ∈ p.data := by
  unfold endsWithS at h
  exact (List.isSuffixOf_iff_suffix.mp h).subset hc

/-- A path ending in `/` does not end in `.js`. -/
theorem not_js_of_slash (p : String) (h : endsWithS p "/" = true) :
    endsWithS p ".js" = false := by
  cases hjs : endsWithS p ".js" with
  | false => rfl
  | true =>
    have h1 := endsWithS_getLast p "/" '/' rfl h
    have h2 := endsWithS_getLast p ".js" 's' rfl hjs
    rw [h1] at h2
    exact absurd h2 (by decide)

/-- A path ending in `/` does not end in `.css`. -/
theorem not_css_of_slash (p : String) (h : endsWithS p "/" = true) :
    endsWithS p ".css" = false := by
  cases hcss : endsWithS p ".css" with
  | false => rfl
  | true =>
    have h1 := endsWithS_getLast p "/" '/' rfl h
    have h2 := endsWithS_getLast p ".css" 's' rfl hcss
    rw [h1] at h2
    exact absurd h2 (by decide)

/-- A path without a dot does not end in a dotted suffix. -/
theorem not_dotted_suffix_of_no_dot (p suf : String) (hdot : '.' ∈ suf.data)
    (h : '.' ∉ p.data) : endsWithS p suf = false := by
  cases hs : endsWithS p suf with
  | false => rfl
  | true => exact absurd (mem_of_endsWithS p suf '.' hdot hs) h

/-- On the trailing-slash special case, `guess_type` answers text/html no
matter what the earlier cases or the external lookup would say. -/
theorem guess_type_slash (p : String) (sg : String → PyGuess)
    (h : endsWithS p "/" = true) : guess_type p sg = ("text/html", none) := by
  simp [guess_type, not_js_of_slash p h, not_css_of_slash p h, h]

/-- When no special case applies, `guess_type` is the wrapped external lookup. -/
theorem guess_type_fallthrough (p : String) (sg : String → PyGuess)
    (h : noSpecialCase p) : guess_type p sg = wrapGuess (sg p) := by
  obtain ⟨hjs, hcss, hhtml, hroot, hslash⟩ := h
  simp [guess_type, hjs, hcss, hhtml, hslash, beq_eq_false_iff_ne.mpr hroot]

/-- A formatted Content-type value with a nonempty type name is nonempty. -/
theorem formatContentType_ne_empty (t : String) (e : Option String)
    (ht : t ≠ "") : formatContentType t e ≠ "" := by
  cases e with
  | none => simpa [formatContentType] using ht
  | some enc =>
    simp only [formatContentType]
    intro hcontra
    have h2 := congrArg String.length hcontra
    rw [String.length_append, String.length_append] at h2
    have h10 : ("; charset=" : String).length = 10 := rfl
    have h0 : ("" : String).length = 0 := rfl
    omega

/-- The redirect branch of `send_head`: a directory reached without a trailing
slash, for any filesystem contents. -/
theorem send_head_redirect (fs : FS) (sg : String → PyGuess) (dts : Nat → String)
    (rp : String) (hdir : isdir fs (translate_path rp) = true)
    (hslash : endsWithS rp "/" = false) :
    send_head fs sg dts rp =
      ({ status := 301
         headers := end_headers [("Location", rp ++ "/")]
         body := Body.empty }, none) := by
  simp [send_head, hdir, hslash]

/-- When the resolution (with index substitution) yields a path, `send_head`
is the open-and-serve tail on that path. -/
theorem send_head_eq_serveFile (fs : FS) (sg : String → PyGuess)
    (dts : Nat → String) (rp p : String) (h : resolvedPath fs rp = some p) :
    send_head fs sg dts rp = serveFile fs sg dts rp p := by
  unfold resolvedPath at h
  unfold send_head
  by_cases hd : isdir fs (translate_path rp) = true
  · simp only [hd, if_true] at h ⊢
    by_cases hs : endsWithS rp "/" = true
    · simp only [hs, Bool.not_true, Bool.false_eq_true, if_false] at h ⊢
      rw [h]
    · rw [Bool.not_eq_true] at hs
      simp [hs] at h
  · rw [Bool.not_eq_true] at hd
    simp only [hd, Bool.false_eq_true, if_false] at h ⊢
    rw [Option.some_inj] at h
    rw [h]

/-- The listing branch of `send_head`: trailing-slash directory with no index
file. -/
theorem send_head_listing (fs : FS) (sg : String → PyGuess) (dts : Nat → String)
    (rp : String) (hdir : isdir fs (translate_path rp) = true)
    (hslash : endsWithS rp "/" = true)
    (hidx : firstIndex fs (translate_path rp) = none) :
    send_head fs sg dts rp = (list_directory (translate_path rp), none) := by
  simp [send_head, hdir, hslash, hidx]

/-- Both `serveFile` outcomes close their header block through the shared
finalization exactly once. -/
theorem serveFile_finalizedOnce (fs : FS) (sg : String → PyGuess)
    (dts : Nat → String) (rp p : String) :
    finalizedOnce (serveFile fs sg dts rp p).1.headers := by
  unfold serveFile
  cases openFile fs p with
  | none =>
    exact ⟨[("Content-Type", "text/html;charset=utf-8"), ("Connection", "close")],
      rfl, by simp [securityNames]⟩
  | some st =>
    exact ⟨[("Content-type", contentTypeFor sg rp),
            ("Content-Length", toString st.size),
            ("Last-Modified", dts st.mtime)],
      rfl, by simp [securityNames]⟩

/-- Every `send_head` outcome has a status among 200, 301 and 404. -/
theorem send_head_status_cases (fs : FS) (sg : String → PyGuess)
    (dts : Nat → String) (rp : String) :
    (send_head fs sg dts rp).1.status = 200 ∨
    (send_head fs sg dts rp).1.status = 301 ∨
    (send_head fs sg dts rp).1.status = 404 := by
  by_cases hd : isdir fs (translate_path rp) = true
  · by_cases hs : endsWithS rp "/" = true
    · cases hidx : firstIndex fs (translate_path rp) with
      | some idx =>
        have hres : resolvedPath fs rp = some idx := by
          simp [resolvedPath, hd, hs, hidx]
        rw [send_head_eq_serveFile fs sg dts rp idx hres]
        unfold serveFile
        split
        · simp [send_error]
        · simp
      | none =>
        rw [send_head_listing fs sg dts rp hd hs hidx]
        simp [list_directory]
    · rw [Bool.not_eq_true] at hs
      rw [send_head_redirect fs sg dts rp hd hs]
      simp
  · rw [Bool.not_eq_true] at hd
    have hres : resolvedPath fs rp = some (translate_path rp) := by
      simp [resolvedPath, hd]
    rw [send_head_eq_serveFile fs sg dts rp _ hres]
    unfold serveFile
    split
    · simp [send_error]
    · simp

set_option maxRecDepth 100000 in
/-- Status strings below 600 collide with `'200'` only at 200 itself. -/
theorem toString_status_eq : ∀ c < 600, (toString c = "200" ↔ c = 200) := by
  decide

/-- Every `guess_type` answer is one of the three special-case literals or the
wrapped external lookup. -/
theorem guess_type_shape (p : String) (sg : String → PyGuess) :
    guess_type p sg = ("application/javascript", none) ∨
    guess_type p sg = ("text/css", none) ∨
    guess_type p sg = ("text/html", none) ∨
    guess_type p sg = wrapGuess (sg p) := by
  unfold guess_type
  split
  · exact Or.inl rfl
  · split
    · exact Or.inr (Or.inl rfl)
    · split
      · exact Or.inr (Or.inr (Or.inl rfl))
      · exact Or.inr (Or.inr (Or.inr rfl))

/-- The modelled MIME table maps to nonempty type names. -/
theorem mimeLookup_ne_empty (e t : String) (h : mimeLookup e = some t) :
    t ≠ "" := by
  unfold mimeLookup mimeTable at h
  simp only [List.lookup] at h
  repeat' split at h
  all_goals cases h
  all_goals decide

/-- The modelled generic lookup always names a nonempty type. -/
theorem guessNonempty_stdlib (p : String) : guessNonempty (stdlibGuess p) := by
  unfold stdlibGuess
  cases h : mimeLookup (extOf p) with
  | none => simp [guessNonempty]
  | some t =>
    simp only [guessNonempty]
    exact mimeLookup_ne_empty _ t h

/-- The content type the handler emits is nonempty as soon as the external
lookup names nonempty types. -/
theorem contentTypeFor_ne_empty (sg : String → PyGuess) (p : String)
    (hne : guessNonempty (sg p)) : contentTypeFor sg p ≠ "" := by
  unfold contentTypeFor
  rcases guess_type_shape p sg with h | h | h | h <;> rw [h]
  · decide
  · decide
  · decide
  · cases hg : sg p with
    | tup t e =>
      rw [hg] at hne
      exact formatContentType_ne_empty t e hne
    | str s =>
      rw [hg] at hne
      simpa [wrapGuess, formatContentType] using hne
    | other => decide

/-- The unfolded form of the modelled per-response log dispatch. -/
theorem log_request_eq (m p : String) (code : Nat) :
    log_request m p code =
      if toString code = "200" then []
      else [String.intercalate " " [m ++ " " ++ p, toString code, "-"]] := by
  simp [log_request, log_message, List.getD]

end Helpers

/-- C1: every response the handler produces — 200 success, 301 redirect, 404
error, directory listing, and OPTIONS preflight alike — closes its header
block through the shared finalization exactly once, which appends the six
fixed CORS/security headers (`Access-Control-Allow-Origin: *`,
`Access-Control-Allow-Methods: GET, POST, PUT, DELETE, OPTIONS`,
`Access-Control-Allow-Headers: Content-Type, Authorization`,
`X-Content-Type-Options: nosniff`, `X-Frame-Options: DENY`,
`X-XSS-Protection: 1; mode=block`) as the final suffix of the block. -/
theorem C1_finalization_every_response (fs : FS) (sg : String → PyGuess)
    (dts : Nat → String) (rp : String) :
    finalizedOnce (send_head fs sg dts rp).1.headers ∧
    finalizedOnce do_OPTIONS.headers := by
  constructor
  · by_cases hd : isdir fs (translate_path rp) = true
    · by_cases hs : endsWithS rp "/" = true
      · cases hidx : firstIndex fs (translate_path rp) with
        | some idx =>
          rw [send_head_eq_serveFile fs sg dts rp idx
            (by simp [resolvedPath, hd, hs, hidx])]
          exact serveFile_finalizedOnce fs sg dts rp idx
        | none =>
          rw [send_head_listing fs sg dts rp hd hs hidx]
          exact ⟨[("Content-type", "text/html; charset=utf-8")], rfl,
            by simp [securityNames]⟩
      · rw [Bool.not_eq_true] at hs
        rw [send_head_redirect fs sg dts rp hd hs]
        exact ⟨[("Location", rp ++ "/")], rfl, by simp [securityNames]⟩
    · rw [Bool.not_eq_true] at hd
      rw [send_head_eq_serveFile fs sg dts rp (translate_path rp)
        (by simp [resolvedPath, hd])]
      exact serveFile_finalizedOnce fs sg dts rp (translate_path rp)
  · exact ⟨[("Access-Control-Allow-Origin", "*"),
      ("Access-Control-Allow-Methods", "GET, POST, PUT, DELETE, OPTIONS"),
      ("Access-Control-Allow-Headers", "Content-Type, Authorization"),
      ("Access-Control-Max-Age", "3600")], rfl, by simp [securityNames]⟩

/-- C3: a GET whose URL path resolves to a directory and does not end with a
trailing slash is answered with a 301 redirect whose Location is the original
request path with `/` appended, no body and no retained handle; the response
is the same for any filesystem in which that path is a directory (no index
lookup and no file open take part in this branch). -/
theorem C3_directory_redirect (fs fs2 : FS) (sg : String → PyGuess)
    (dts : Nat → String) (rp : String)
    (hdir : isdir fs (translate_path rp) = true)
    (hdir2 : isdir fs2 (translate_path rp) = true)
    (hslash : endsWithS rp "/" = false) :
    send_head fs sg dts rp =
      ({ status := 301
         headers := end_headers [("Location", rp ++ "/")]
         body := Body.empty }, none) ∧
    send_head fs sg dts rp = send_head fs2 sg dts rp := by
  refine ⟨send_head_redirect fs sg dts rp hdir hslash, ?_⟩
  rw [send_head_redirect fs sg dts rp hdir hslash,
    send_head_redirect fs2 sg dts rp hdir2 hslash]

/-- C4: for a directory reached with a trailing slash the handler checks
`index.html` then `index.htm` in that order; the first existing one becomes
the resolved path that is opened and served (so `index.html` wins when both
exist), and with neither present the directory-listing collaborator's result
is returned unchanged, status 200 and no error. -/
theorem C4_index_order_and_listing (fs : FS) (sg : String → PyGuess)
    (dts : Nat → String) (rp : String)
    (hdir : isdir fs (translate_path rp) = true)
    (hslash : endsWithS rp "/" = true) :
    (pathExists fs (joinPath (translate_path rp) "index.html") = true →
       resolvedPath fs rp = some (joinPath (translate_path rp) "index.html") ∧
       send_head fs sg dts rp =
         serveFile fs sg dts rp (joinPath (translate_path rp) "index.html") ∧
       (∀ st, openFile fs (joinPath (translate_path rp) "index.html") = some st →
          (send_head fs sg dts rp).2 =
            some (joinPath (translate_path rp) "index.html"))) ∧
    (pathExists fs (joinPath (translate_path rp) "index.html") = false →
     pathExists fs (joinPath (translate_path rp) "index.htm") = true →
       resolvedPath fs rp = some (joinPath (translate_path rp) "index.htm") ∧
       send_head fs sg dts rp =
         serveFile fs sg dts rp (joinPath (translate_path rp) "index.htm")) ∧
    (pathExists fs (joinPath (translate_path rp) "index.html") = false →
     pathExists fs (joinPath (translate_path rp) "index.htm") = false →
       send_head fs sg dts rp = (list_directory (translate_path rp), none) ∧
       (send_head fs sg dts rp).1.status = 200 ∧
       (send_head fs sg dts rp).1.body = Body.listing (translate_path rp)) := by
  refine ⟨fun hhtml => ?_, fun hhtml hhtm => ?_, fun hhtml hhtm => ?_⟩
  · have hidx : firstIndex fs (translate_path rp) =
        some (joinPath (translate_path rp) "index.html") := by
      simp [firstIndex, hhtml]
    have hres : resolvedPath fs rp =
        some (joinPath (translate_path rp) "index.html") := by
      simp [resolvedPath, hdir, hslash, hidx]
    refine ⟨hres, send_head_eq_serveFile fs sg dts rp _ hres, fun st hst => ?_⟩
    rw [send_head_eq_serveFile fs sg dts rp _ hres]
    unfold serveFile
    rw [hst]
  · have hidx : firstIndex fs (translate_path rp) =
        some (joinPath (translate_path rp) "index.htm") := by
      simp [firstIndex, hhtml, hhtm]
    have hres : resolvedPath fs rp =
        some (joinPath (translate_path rp) "index.htm") := by
      simp [resolvedPath, hdir, hslash, hidx]
    exact ⟨hres, send_head_eq_serveFile fs sg dts rp _ hres⟩
  · have hidx : firstIndex fs (translate_path rp) = none := by
      simp [firstIndex, hhtml, hhtm]
    rw [send_head_listing fs sg dts rp hdir hslash hidx]
    exact ⟨rfl, rfl, rfl⟩

/-- C5: when the resolved path (after index substitution, if any) cannot be
opened as a binary file, the response is the 404 error with body message
"File not found", its status is not 200, and no open file handle is
retained. -/
theorem C5_open_failure_404 (fs : FS) (sg : String → PyGuess)
    (dts : Nat → String) (rp p : String)
    (hres : resolvedPath fs rp = some p)
    (hopen : openFile fs p = none) :
    send_head fs sg dts rp = (send_error 404 "File not found", none) ∧
    (send_head fs sg dts rp).1.status = 404 ∧
    (send_head fs sg dts rp).1.body = Body.error 404 "File not found" ∧
    (send_head fs sg dts rp).1.status ≠ 200 ∧
    (send_head fs sg dts rp).2 = none := by
  rw [send_head_eq_serveFile fs sg dts rp p hres]
  unfold serveFile
  rw [hopen]
  simp [send_error]

/-- C6: when the resolved path (after index substitution, if any) opens
successfully as a regular file, the response has status 200, carries a
Content-Length equal to the stat byte count of the open descriptor and a
Last-Modified derived from the stat modification timestamp through the
external HTTP-date formatter, and the open handle is the one returned. -/
theorem C6_success_stat_headers (fs : FS) (sg : String → PyGuess)
    (dts : Nat → String) (rp p : String) (st : FileStat)
    (hres : resolvedPath fs rp = some p)
    (hopen : openFile fs p = some st) :
    (send_head fs sg dts rp).1.status = 200 ∧
    ("Content-Length", toString st.size) ∈ (send_head fs sg dts rp).1.headers ∧
    ("Last-Modified", dts st.mtime) ∈ (send_head fs sg dts rp).1.headers ∧
    (send_head fs sg dts rp).1.body = Body.file p st.size ∧
    (send_head fs sg dts rp).2 = some p := by
  rw [send_head_eq_serveFile fs sg dts rp p hres]
  unfold serveFile
  rw [hopen]
  simp [end_headers]

/-- C2: the Content-type is computed from the ORIGINAL request URL path with
the precedence `.js` → application/javascript, else `.css` → text/css, else
`.html` / `"/"` / trailing slash → text/html, else the generic
extension-to-MIME lookup with application/octet-stream substituted for an
unusable result; an encoding hint is formatted as
`"<type>; charset=<encoding>"`; the emitted value is nonempty whenever the
lookup names nonempty types (as the modelled stdlib lookup always does); and
the 200 response's Content-type header is the one computed from the original
request path, not from the resolved file. -/
theorem C2_content_type_precedence (sg : String → PyGuess) (p : String) :
    (endsWithS p ".js" = true → contentTypeFor sg p = "application/javascript") ∧
    (endsWithS p ".js" = false → endsWithS p ".css" = true →
       contentTypeFor sg p = "text/css") ∧
    (endsWithS p ".js" = false → endsWithS p ".css" = false →
       (endsWithS p ".html" = true ∨ p = "/" ∨ endsWithS p "/" = true) →
       contentTypeFor sg p = "text/html") ∧
    (noSpecialCase p → guess_type p sg = wrapGuess (sg p)) ∧
    (noSpecialCase p → sg p = PyGuess.other →
       contentTypeFor sg p = "application/octet-stream") ∧
    (∀ t e, noSpecialCase p → sg p = PyGuess.tup t (some e) →
       contentTypeFor sg p = t ++ "; charset=" ++ e) ∧
    (guessNonempty (sg p) → contentTypeFor sg p ≠ "") ∧
    contentTypeFor stdlibGuess p ≠ "" ∧
    (∀ fs dts q st, resolvedPath fs p = some q → openFile fs q = some st →
       ("Content-type", contentTypeFor sg p) ∈
         (send_head fs sg dts p).1.headers) := by
  refine ⟨fun hjs => ?_, fun hjs hcss => ?_, fun hjs hcss hor => ?_,
    guess_type_fallthrough p sg, fun hn hother => ?_, fun t e hn htup => ?_,
    contentTypeFor_ne_empty sg p,
    contentTypeFor_ne_empty stdlibGuess p (guessNonempty_stdlib p),
    fun fs dts q st hres hopen => ?_⟩
  · simp [contentTypeFor, guess_type, hjs, formatContentType]
  · simp [contentTypeFor, guess_type, hjs, hcss, formatContentType]
  · rcases hor with h | h | h
    · simp [contentTypeFor, guess_type, hjs, hcss, h, formatContentType]
    · subst h
      have e1 : endsWithS "/" ".js" = false := by decide
      have e2 : endsWithS "/" ".css" = false := by decide
      simp [contentTypeFor, guess_type, e1, e2, formatContentType]
    · simp [contentTypeFor, guess_type, hjs, hcss, h, formatContentType]
  · unfold contentTypeFor
    rw [guess_type_fallthrough p sg hn, hother]
    rfl
  · unfold contentTypeFor
    rw [guess_type_fallthrough p sg hn, htup]
    rfl
  · rw [send_head_eq_serveFile fs sg dts p q hres]
    unfold serveFile
    rw [hopen]
    simp [end_headers]

/-- C7: a dispatched response produces a log entry exactly when its status is
not 200 — none for 200, exactly one line (carrying method, path and status)
for every other status code — and the statuses the handler actually produces
obey the same rule. -/
theorem C7_log_only_non_200 (m : String) (code : Nat) (hcode : code < 600) :
    (∀ p, log_request m p code = [] ↔ code = 200) ∧
    (∀ p, code ≠ 200 →
       log_request m p code =
         [String.intercalate " " [m ++ " " ++ p, toString code, "-"]]) ∧
    (∀ fs sg dts rp,
       (log_request m rp (send_head fs sg dts rp).1.status = [] ↔
        (send_head fs sg dts rp).1.status = 200)) ∧
    log_request m "*" do_OPTIONS.status = [] := by
  have key := toString_status_eq code hcode
  have base : ∀ p, log_request m p code = [] ↔ code = 200 := by
    intro p
    rw [log_request_eq]
    by_cases h : toString code = "200"
    · have hc := key.mp h
      subst hc
      simp [h]
    · simp only [h, if_false]
      constructor
      · intro hc
        exact absurd hc (by simp)
      · intro hc
        exact absurd (key.mpr hc) h
  refine ⟨base, fun p hne => ?_, fun fs sg dts rp => ?_, ?_⟩
  · rw [log_request_eq]
    have h : ¬ toString code = "200" := fun hc => hne (key.mp hc)
    simp [h]
  · have h200 : toString (200 : Nat) = "200" := by decide
    have h301 : ¬ toString (301 : Nat) = "200" := by decide
    have h404 : ¬ toString (404 : Nat) = "200" := by decide
    rcases send_head_status_cases fs sg dts rp with h | h | h <;> rw [h]
    · simp [log_request_eq, h200]
    · simp [log_request_eq, h301]
    · simp [log_request_eq, h404]
  · have h200 : toString (200 : Nat) = "200" := by decide
    show log_request m "*" 200 = []
    simp [log_request_eq, h200]

/-- C8 counterexample: the path `/README` has no extension (no dot at all, so
also none under the splitext reading) and does not end with a slash, yet the
content-type computation yields application/octet-stream — not text/html as
the claim states for every extension-less path — because extension-less paths
fall through to the generic lookup instead of being special-cased. -/
theorem C8_counterexample :
    ('.' ∉ "/README".data) ∧
    extOf "/README" = "" ∧
    endsWithS "/README" "/" = false ∧
    contentTypeFor stdlibGuess "/README" = "application/octet-stream" ∧
    contentTypeFor stdlibGuess "/README" ≠ "text/html" := by
  decide

/-- C8 amended: the content-type computation yields exactly
application/javascript for `index.js`, exactly text/css for `styles.css`, and
text/html for every path that ends with `/`; a path with no extension that
does not end with `/` falls through to the generic extension-to-MIME lookup
(yielding application/octet-stream when the lookup has nothing usable) rather
than being mapped to text/html. -/
theorem C8_amended (sg : String → PyGuess) (p : String) :
    guess_type "index.js" sg = ("application/javascript", none) ∧
    guess_type "styles.css" sg = ("text/css", none) ∧
    (endsWithS p "/" = true → guess_type p sg = ("text/html", none)) ∧
    ('.' ∉ p.data → endsWithS p "/" = false → p ≠ "/" →
       guess_type p sg = wrapGuess (sg p)) ∧
    ('.' ∉ p.data → endsWithS p "/" = false → p ≠ "/" →
       sg p = PyGuess.other →
       contentTypeFor sg p = "application/octet-stream") := by
  have hjs : endsWithS "index.js" ".js" = true := by decide
  have hcss1 : endsWithS "styles.css" ".js" = false := by decide
  have hcss2 : endsWithS "styles.css" ".css" = true := by decide
  refine ⟨by simp [guess_type, hjs], by simp [guess_type, hcss1, hcss2],
    fun hs => guess_type_slash p sg hs, fun hdot hs hroot => ?_,
    fun hdot hs hroot hother => ?_⟩
  · exact guess_type_fallthrough p sg
      ⟨not_dotted_suffix_of_no_dot p ".js" (by decide) hdot,
       not_dotted_suffix_of_no_dot p ".css" (by decide) hdot,
       not_dotted_suffix_of_no_dot p ".html" (by decide) hdot, hroot, hs⟩
  · unfold contentTypeFor
    rw [guess_type_fallthrough p sg
      ⟨not_dotted_suffix_of_no_dot p ".js" (by decide) hdot,
       not_dotted_suffix_of_no_dot p ".css" (by decide) hdot,
       not_dotted_suffix_of_no_dot p ".html" (by decide) hdot, hroot, hs⟩,
      hother]
    rfl

/-- C9 counterexample: the OPTIONS response does not carry CORS headers only —
the shared finalization also appends the security headers, so
`X-Frame-Options: DENY` is present even though it is not among the four CORS
headers the claim enumerates. -/
theorem C9_counterexample :
    ("X-Frame-Options", "DENY") ∈ do_OPTIONS.headers ∧
    ¬ (∀ h ∈ do_OPTIONS.headers,
        h.1 ∈ ["Access-Control-Allow-Origin", "Access-Control-Allow-Methods",
               "Access-Control-Allow-Headers", "Access-Control-Max-Age"]) := by
  decide

/-- C9 amended: the OPTIONS response has status 200 and an empty body; its own
branch emits exactly the four CORS headers
`Access-Control-Allow-Origin: *`,
`Access-Control-Allow-Methods: GET, POST, PUT, DELETE, OPTIONS`,
`Access-Control-Allow-Headers: Content-Type, Authorization` and
`Access-Control-Max-Age: 3600`, followed by the shared finalization's six
CORS/security headers; no filesystem access occurs (the branch is a constant
of the filesystem model). -/
theorem C9_amended :
    do_OPTIONS.status = 200 ∧
    do_OPTIONS.body = Body.empty ∧
    do_OPTIONS.headers =
      [("Access-Control-Allow-Origin", "*"),
       ("Access-Control-Allow-Methods", "GET, POST, PUT, DELETE, OPTIONS"),
       ("Access-Control-Allow-Headers", "Content-Type, Authorization"),
       ("Access-Control-Max-Age", "3600")] ++ corsSecurityHeaders := by
  decide

/-- C10 counterexample: the claim quantifies over every request path carrying
a query suffix, but the special cases test the raw string, so a query suffix
that itself ends in `.js` makes the `.js` case apply instead of falling
through to the generic lookup: `/data.txt?cb=x.js` is typed
application/javascript, not the lookup's answer. -/
theorem C10_counterexample :
    ('?' ∈ "/data.txt?cb=x.js".data) ∧
    guess_type "/data.txt?cb=x.js" stdlibGuess = ("application/javascript", none) ∧
    wrapGuess (stdlibGuess "/data.txt?cb=x.js") = ("text/javascript", none) ∧
    guess_type "/data.txt?cb=x.js" stdlibGuess ≠
      wrapGuess (stdlibGuess "/data.txt?cb=x.js") := by
  decide

/-- C10 amended: the content-type special cases test the raw request path
string including the query string, so for a query-carrying path whose raw
string does not itself end in one of the special suffixes (such as
`/app.js?v=1`) none of the `.js`/`.css`/`.html`/trailing-slash cases applies
and the type falls through to the generic lookup, even though the bytes
served are those of the query-stripped file `/app.js` (whose own path would
be special-cased to application/javascript): the special-case type is not a
function of the file actually served. -/
theorem C10_amended (sg : String → PyGuess) (fs : FS) (dts : Nat → String)
    (st : FileStat) (hnd : isdir fs "/app.js" = false)
    (hopen : openFile fs "/app.js" = some st) :
    translate_path "/app.js?v=1" = "/app.js" ∧
    guess_type "/app.js?v=1" sg = wrapGuess (sg "/app.js?v=1") ∧
    guess_type "/app.js" sg = ("application/javascript", none) ∧
    (send_head fs sg dts "/app.js?v=1").2 = some "/app.js" ∧
    ("Content-type",
       formatContentType (wrapGuess (sg "/app.js?v=1")).1
         (wrapGuess (sg "/app.js?v=1")).2) ∈
      (send_head fs sg dts "/app.js?v=1").1.headers ∧
    (∀ q, noSpecialCase q → guess_type q sg = wrapGuess (sg q)) := by
  have htp : translate_path "/app.js?v=1" = "/app.js" := by decide
  have hfall : guess_type "/app.js?v=1" sg = wrapGuess (sg "/app.js?v=1") :=
    guess_type_fallthrough "/app.js?v=1" sg (by decide)
  have hres : resolvedPath fs "/app.js?v=1" = some "/app.js" := by
    rw [resolvedPath, htp]
    simp [hnd]
  have hjs : endsWithS "/app.js" ".js" = true := by decide
  have hserve := send_head_eq_serveFile fs sg dts "/app.js?v=1" "/app.js" hres
  refine ⟨htp, hfall, by simp [guess_type, hjs], ?_, ?_,
    fun q hq => guess_type_fallthrough q sg hq⟩
  · rw [hserve]
    unfold serveFile
    rw [hopen]
  · rw [hserve]
    unfold serveFile
    rw [hopen]
    have : contentTypeFor sg "/app.js?v=1" =
        formatContentType (wrapGuess (sg "/app.js?v=1")).1
          (wrapGuess (sg "/app.js?v=1")).2 := by
      unfold contentTypeFor
      rw [hfall]
    rw [← this]
    simp [end_headers]

/-- Concrete filesystem fixture for the witnesses: a directory with both index
files, an empty directory, and a readable JavaScript file. -/
def fsW : FS :=
  [("/d", Node.dir),
   ("/d/index.html", Node.file ⟨5, 7⟩ true),
   ("/d/index.htm", Node.file ⟨3, 2⟩ true),
   ("/e", Node.dir),
   ("/app.js", Node.file ⟨12, 9⟩ true)]

/-- Concrete date formatter for the witnesses. -/
def dtsW : Nat → String := fun t => toString t

/-- Witness for C2: the `.css` precedence case at a concrete path. -/
theorem C2_witness : contentTypeFor stdlibGuess "/styles.css" = "text/css" :=
  (C2_content_type_precedence stdlibGuess "/styles.css").2.1 (by decide)
    (by decide)

/-- Witness for C3: a concrete directory reached without a trailing slash,
with an index file present, is redirected. -/
theorem C3_witness :
    send_head fsW stdlibGuess dtsW "/d" =
      ({ status := 301
         headers := end_headers [("Location", "/d/")]
         body := Body.empty }, none) :=
  (C3_directory_redirect fsW [("/d", Node.dir)] stdlibGuess dtsW "/d"
    (by decide) (by decide) (by decide)).1

/-- Witness for C4: a concrete directory holding both index files resolves to
`index.html`. -/
theorem C4_witness :
    resolvedPath fsW "/d/" =
      some (joinPath (translate_path "/d/") "index.html") :=
  ((C4_index_order_and_listing fsW stdlibGuess dtsW "/d/" (by decide)
    (by decide)).1 (by decide)).1

/-- Witness for C5: a concrete missing path is answered 404. -/
theorem C5_witness :
    send_head fsW stdlibGuess dtsW "/missing" =
      (send_error 404 "File not found", none) :=
  (C5_open_failure_404 fsW stdlibGuess dtsW "/missing" "/missing" (by decide)
    (by decide)).1

/-- Witness for C6: a concrete readable file is served 200 with its stat byte
count as Content-Length. -/
theorem C6_witness :
    (send_head fsW stdlibGuess dtsW "/app.js").1.status = 200 ∧
    ("Content-Length", "12") ∈ (send_head fsW stdlibGuess dtsW "/app.js").1.headers := by
  have h := C6_success_stat_headers fsW stdlibGuess dtsW "/app.js" "/app.js"
    ⟨12, 9⟩ (by decide) (by decide)
  exact ⟨h.1, h.2.1⟩

/-- Witness for C7: a concrete 404 outcome produces exactly one log line. -/
theorem C7_witness :
    log_request "GET" "/missing" 404 =
      [String.intercalate " " ["GET" ++ " " ++ "/missing", toString 404, "-"]] :=
  (C7_log_only_non_200 "GET" 404 (by decide)).2.1 "/missing" (by decide)

/-- Witness for C8 amended: a concrete extension-less path falls through to
the generic lookup. -/
theorem C8_amended_witness :
    guess_type "/README" stdlibGuess = wrapGuess (stdlibGuess "/README") :=
  (C8_amended stdlibGuess "/README").2.2.2.1 (by decide) (by decide) (by decide)

/-- Witness for C10 amended: on a concrete filesystem the query-carrying
request serves the query-stripped file. -/
theorem C10_amended_witness :
    (send_head fsW stdlibGuess dtsW "/app.js?v=1").2 = some "/app.js" :=
  (C10_amended stdlibGuess fsW dtsW ⟨12, 9⟩ (by decide) (by decide)).2.2.2.1

end AuthX
